import Mathlib

/-!
Verification of the admin authorization resolver (`checkAdmin`) of the
5thvital-admin dashboard.

The resolver lives in the source file embedding `src/unnamed/part_004`
(the most recent, most defensive version, the one the specification's
decision procedure describes).  Its collaborators are modelled as plain
values passed to the function:

* the environment (`NEXT_PUBLIC_SUPABASE_URL`, `NEXT_PUBLIC_SUPABASE_ANON_KEY`,
  `ADMIN_ALLOWED_EMAILS`) as strings, where `""` stands for an unset
  variable — faithful because the JavaScript code only ever tests these
  via truthiness (`!url`, `x || ""`), which conflates `undefined` and `""`;
* the identity provider's answer (`supabase.auth.getUser()`) as an
  `Option SessionUser`, where the user's email is an `Option String`
  (`none` models a missing email field);
* the two role stores as functions from a user id to a supabase
  `maybeSingle()` result `{ data, error }`.

Roles are carried as plain strings: the source reads them as database
text and casts them unchecked (`as AdminRole`), validating only by
membership in `ADMIN_ALLOWED_ROLES`.  A database `null` role is `none`;
JavaScript truthiness of a role (`row.role`) is `presentString`.
-/

/-- `ADMIN_ALLOWED_ROLES` from `src/lib/types.ts`: the roles that grant
dashboard access. -/
def ADMIN_ALLOWED_ROLES : List String := ["super_admin", "admin"]

/-- The authenticated user as returned by `supabase.auth.getUser()`:
an id and an optional email. -/
structure SessionUser where
  id : String
  email : Option String
deriving DecidableEq, Repr

/-- A row of the primary role store `public.user_roles`
(`select "user_id, role"`); `role` is nullable database text. -/
structure UserRoleRow where
  user_id : String
  role : Option String
deriving DecidableEq, Repr

/-- A row of the legacy role store `public.admins`
(`select "id, user_id, email, role"`). -/
structure AdminsRow where
  id : String
  user_id : String
  email : Option String
  role : Option String
deriving DecidableEq, Repr

/-- A supabase `maybeSingle()` query outcome: optional data row and an
optional error.  The source destructures both but reads only `data`
(the error is merely passed to `debugLog`). -/
structure QueryResult (α : Type) where
  data : Option α
  error : Option String
deriving DecidableEq, Repr

/-- The process environment the resolver reads: the two Supabase
connection variables and the raw `ADMIN_ALLOWED_EMAILS` string.
`""` models an unset variable (JavaScript falsy). -/
structure Env where
  supabaseUrl : String
  supabaseAnonKey : String
  adminAllowedEmails : String
deriving DecidableEq, Repr

/-- The two role stores, each a point lookup keyed by the user id
(`.eq("user_id", user.id).maybeSingle()`). -/
structure Stores where
  userRoles : String → QueryResult UserRoleRow
  admins : String → QueryResult AdminsRow

/-- The closed set of denial reasons of `CheckAdminResult.reason`. -/
inductive DenyReason where
  | NO_SESSION
  | NOT_ALLOWED
  | MISSING_ENV
  | NO_ADMIN_ROLE
deriving DecidableEq, Repr

/-- `AdminInfo` from the source: id, email, role of an authorized admin. -/
structure AdminInfo where
  id : String
  email : String
  role : String
deriving DecidableEq, Repr

/-- `CheckAdminResult` from the source. -/
structure CheckAdminResult where
  ok : Bool
  admin : Option AdminInfo
  isAuthenticated : Bool
  reason : Option DenyReason
deriving DecidableEq, Repr

/-- JavaScript `String.prototype.split(sep)` for a one-character
separator, on the character list (`"".split(",")` gives `[""]`). -/
def splitCharsOn (sep : Char) : List Char → List (List Char)
  | [] => [[]]
  | c :: cs =>
    let rest := splitCharsOn sep cs
    if c = sep then [] :: rest
    else
      match rest with
      | [] => [[c]]
      | r :: rs => (c :: r) :: rs

/-- JavaScript `String.prototype.trim()`: strip whitespace from both
ends (char-level, so that proofs can evaluate it). -/
def trimStr (s : String) : String :=
  String.mk
    (((s.data.dropWhile Char.isWhitespace).reverse.dropWhile
        Char.isWhitespace).reverse)

/-- JavaScript `String.prototype.toLowerCase()` (char-level, so that
proofs can evaluate it). -/
def toLowerStr (s : String) : String := String.mk (s.data.map Char.toLower)

/-- The module-level `allowedEmails` computation:
`(raw || "").split(",").map(e => e.trim().toLowerCase()).filter(Boolean)`. -/
def allowedEmailsOf (raw : String) : List String :=
  (((splitCharsOn ',' raw.data).map String.mk).map
      (fun e => toLowerStr (trimStr e))).filter (fun e => e != "")

/-- JavaScript truthiness of an optional string: `none` and `some ""`
are falsy; a truthy string is returned as-is. -/
def presentString : Option String → Option String
  | none => none
  | some s => if s = "" then none else some s

/-- The guard `userRoleRow && userRoleRow.role`: the role of a primary
row when the row exists and its role is truthy. -/
def roleOfUserRoleRow (d : Option UserRoleRow) : Option String :=
  match d with
  | some row => presentString row.role
  | none => none

/-- The guard `adminRow && adminRow.role` on a legacy row. -/
def roleOfAdminsRow (d : Option AdminsRow) : Option String :=
  match d with
  | some row => presentString row.role
  | none => none

/-- The `{ ok: true, admin: { id, email, role }, isAuthenticated: true }`
result shape. -/
def okResult (uid email role : String) : CheckAdminResult :=
  { ok := true
    admin := some { id := uid, email := email, role := role }
    isAuthenticated := true
    reason := none }

/-- The `{ ok: false, admin: null, isAuthenticated, reason }` result shape. -/
def denyResult (authed : Bool) (r : DenyReason) : CheckAdminResult :=
  { ok := false, admin := none, isAuthenticated := authed, reason := some r }

/-- STEP 3 of the source: no role found in either table; grant
`super_admin` when the allowlist is configured and contains the email,
otherwise deny with `NO_ADMIN_ROLE`. -/
def bootstrapStep (uid email : String) (allowedEmails : List String) :
    CheckAdminResult :=
  if !allowedEmails.isEmpty && allowedEmails.contains email then
    okResult uid email "super_admin"
  else
    denyResult true DenyReason.NO_ADMIN_ROLE

/-- STEP 2 of the source: fallback to the legacy `public.admins` table.
If a row with a truthy role exists, authorize or deny on membership in
`ADMIN_ALLOWED_ROLES`; otherwise continue to the bootstrap step. -/
def legacyStep (uid email : String) (allowedEmails : List String)
    (adminsData : Option AdminsRow) : CheckAdminResult :=
  match roleOfAdminsRow adminsData with
  | some role =>
    if ADMIN_ALLOWED_ROLES.contains role then okResult uid email role
    else denyResult true DenyReason.NO_ADMIN_ROLE
  | none => bootstrapStep uid email allowedEmails

/-- STEP 1 of the source: the primary `public.user_roles` table.  If a
row with a truthy role exists, authorize or deny on membership in
`ADMIN_ALLOWED_ROLES`; otherwise fall through to the legacy step. -/
def primaryStep (uid email : String) (allowedEmails : List String)
    (userRolesData : Option UserRoleRow) (adminsData : Option AdminsRow) :
    CheckAdminResult :=
  match roleOfUserRoleRow userRolesData with
  | some role =>
    if ADMIN_ALLOWED_ROLES.contains role then okResult uid email role
    else denyResult true DenyReason.NO_ADMIN_ROLE
  | none => legacyStep uid email allowedEmails adminsData

/-- `checkAdmin` from the source, as a function of its collaborators:
environment, identity-provider answer, stores.

1. `getSupabaseServerClient` returns `null` when either Supabase
   variable is falsy → `MISSING_ENV`;
2. `!user || !user.email` → `NO_SESSION`;
3. allowlist gate when `allowedEmails` is non-empty → `NOT_ALLOWED`;
4. primary table, then legacy table, then allowlist bootstrap. -/
def checkAdmin (env : Env) (user : Option SessionUser) (stores : Stores) :
    CheckAdminResult :=
  if env.supabaseUrl = "" || env.supabaseAnonKey = "" then
    denyResult false DenyReason.MISSING_ENV
  else
    match user with
    | none => denyResult false DenyReason.NO_SESSION
    | some u =>
      match presentString u.email with
      | none => denyResult false DenyReason.NO_SESSION
      | some rawEmail =>
        if !(allowedEmailsOf env.adminAllowedEmails).isEmpty
            && !(allowedEmailsOf env.adminAllowedEmails).contains (toLowerStr rawEmail) then
          denyResult true DenyReason.NOT_ALLOWED
        else
          primaryStep u.id (toLowerStr rawEmail) (allowedEmailsOf env.adminAllowedEmails)
            (stores.userRoles u.id).data (stores.admins u.id).data

/-- `requireAdmin` from the source: the admin object when authorized. -/
def requireAdmin (env : Env) (user : Option SessionUser) (stores : Stores) :
    Option AdminInfo :=
  let res := checkAdmin env user stores
  if res.ok = false then none else res.admin

/-! ## Helper lemmas -/

/-- The bootstrap step returns either the super_admin grant or the
`NO_ADMIN_ROLE` denial. -/
theorem bootstrapStep_shape (uid email : String) (ae : List String) :
    bootstrapStep uid email ae = okResult uid email "super_admin"
    ∨ bootstrapStep uid email ae = denyResult true DenyReason.NO_ADMIN_ROLE := by
  unfold bootstrapStep
  split
  · exact Or.inl rfl
  · exact Or.inr rfl

/-- The legacy step returns either an authorization or the
`NO_ADMIN_ROLE` denial. -/
theorem legacyStep_shape (uid email : String) (ae : List String)
    (d : Option AdminsRow) :
    (∃ role, legacyStep uid email ae d = okResult uid email role)
    ∨ legacyStep uid email ae d = denyResult true DenyReason.NO_ADMIN_ROLE := by
  unfold legacyStep
  split
  · split
    · exact Or.inl ⟨_, rfl⟩
    · exact Or.inr rfl
  · rcases bootstrapStep_shape uid email ae with h | h
    · exact Or.inl ⟨_, h⟩
    · exact Or.inr h

/-- The primary step returns either an authorization or the
`NO_ADMIN_ROLE` denial. -/
theorem primaryStep_shape (uid email : String) (ae : List String)
    (d1 : Option UserRoleRow) (d2 : Option AdminsRow) :
    (∃ role, primaryStep uid email ae d1 d2 = okResult uid email role)
    ∨ primaryStep uid email ae d1 d2 = denyResult true DenyReason.NO_ADMIN_ROLE := by
  unfold primaryStep
  split
  · split
    · exact Or.inl ⟨_, rfl⟩
    · exact Or.inr rfl
  · exact legacyStep_shape uid email ae d2

/-- Every `checkAdmin` result is an `okResult` or a `denyResult`. -/
theorem checkAdmin_shape (env : Env) (user : Option SessionUser) (stores : Stores) :
    (∃ uid email role, checkAdmin env user stores = okResult uid email role)
    ∨ ∃ b r, checkAdmin env user stores = denyResult b r := by
  unfold checkAdmin
  split
  · exact Or.inr ⟨_, _, rfl⟩
  · split
    · exact Or.inr ⟨_, _, rfl⟩
    · split
      · exact Or.inr ⟨_, _, rfl⟩
      · split
        · exact Or.inr ⟨_, _, rfl⟩
        · rcases primaryStep_shape _ _ _ _ _ with ⟨role, h⟩ | h
          · exact Or.inl ⟨_, _, role, h⟩
          · exact Or.inr ⟨_, _, h⟩

/-- With both Supabase variables present and a valid session email,
`checkAdmin` reduces to the allowlist gate followed by the role steps. -/
theorem checkAdmin_of_session (env : Env) (u : SessionUser) (e : String)
    (stores : Stores)
    (hurl : env.supabaseUrl ≠ "") (hkey : env.supabaseAnonKey ≠ "")
    (he : u.email = some e) (hene : e ≠ "") :
    checkAdmin env (some u) stores =
      (if !(allowedEmailsOf env.adminAllowedEmails).isEmpty
          && !(allowedEmailsOf env.adminAllowedEmails).contains (toLowerStr e) then
        denyResult true DenyReason.NOT_ALLOWED
      else
        primaryStep u.id (toLowerStr e) (allowedEmailsOf env.adminAllowedEmails)
          (stores.userRoles u.id).data (stores.admins u.id).data) := by
  unfold checkAdmin
  rw [if_neg (by simp [hurl, hkey])]
  simp only [he, presentString]
  rw [if_neg hene]

/-- With a valid session that passes the allowlist gate, `checkAdmin`
reduces to the role steps. -/
theorem checkAdmin_gate_pass (env : Env) (u : SessionUser) (e : String)
    (stores : Stores)
    (hurl : env.supabaseUrl ≠ "") (hkey : env.supabaseAnonKey ≠ "")
    (he : u.email = some e) (hene : e ≠ "")
    (hallow : allowedEmailsOf env.adminAllowedEmails = []
      ∨ (allowedEmailsOf env.adminAllowedEmails).contains (toLowerStr e) = true) :
    checkAdmin env (some u) stores =
      primaryStep u.id (toLowerStr e) (allowedEmailsOf env.adminAllowedEmails)
        (stores.userRoles u.id).data (stores.admins u.id).data := by
  rw [checkAdmin_of_session env u e stores hurl hkey he hene]
  rcases hallow with h | h
  · rw [if_neg (by simp [h])]
  · have hmem : toLowerStr e ∈ allowedEmailsOf env.adminAllowedEmails := by
      simpa using h
    rw [if_neg (by simp [hmem])]

/-- With the Supabase variables present, an absent identity-provider
answer resolves to the `NO_SESSION` denial. -/
theorem checkAdmin_none_eq (env : Env) (stores : Stores)
    (hurl : env.supabaseUrl ≠ "") (hkey : env.supabaseAnonKey ≠ "") :
    checkAdmin env none stores = denyResult false DenyReason.NO_SESSION := by
  unfold checkAdmin
  rw [if_neg (by simp [hurl, hkey])]

/-! ## Claim theorems -/

/-- C7: whenever the identity provider yields no authenticated
principal, `checkAdmin` returns `Denied{NO_SESSION}` with
`isAuthenticated = false`; since the conclusion is one constant value
over arbitrary `env.adminAllowedEmails` and arbitrary stores, the
result is identical for any two states of the primary store, the
legacy store and the allowlist — no store is consulted. -/
theorem c7_no_session_short_circuit (env : Env) (stores : Stores)
    (hurl : env.supabaseUrl ≠ "") (hkey : env.supabaseAnonKey ≠ "") :
    checkAdmin env none stores = denyResult false DenyReason.NO_SESSION :=
  checkAdmin_none_eq env stores hurl hkey

/-- Witness for C7: a concrete call with fully populated stores and a
configured allowlist still yields the `NO_SESSION` denial. -/
theorem c7_no_session_short_circuit_witness :
    checkAdmin ⟨"https://x.supabase.co", "anon-key", "a@x.com"⟩ none
      ⟨fun _ => ⟨some ⟨"u1", some "admin"⟩, none⟩,
       fun _ => ⟨some ⟨"r1", "u1", some "a@x.com", some "admin"⟩, none⟩⟩ =
      denyResult false DenyReason.NO_SESSION :=
  c7_no_session_short_circuit ⟨"https://x.supabase.co", "anon-key", "a@x.com"⟩
    ⟨fun _ => ⟨some ⟨"u1", some "admin"⟩, none⟩,
     fun _ => ⟨some ⟨"r1", "u1", some "a@x.com", some "admin"⟩, none⟩⟩
    (by decide) (by decide)

/-- C8: whenever a required Supabase connection variable is absent
(the source's `MISSING_ENV`, the spec's `MISSING_CONFIGURATION`),
`checkAdmin` fails closed with that denial; the conclusion is one
constant value over arbitrary session, stores and allowlist, so the
denial precedes any identity or role-store lookup. -/
theorem c8_missing_configuration_fails_closed (env : Env)
    (user : Option SessionUser) (stores : Stores)
    (h : env.supabaseUrl = "" ∨ env.supabaseAnonKey = "") :
    checkAdmin env user stores = denyResult false DenyReason.MISSING_ENV := by
  unfold checkAdmin
  rcases h with h | h
  · rw [if_pos (by simp [h])]
  · rw [if_pos (by simp [h])]

/-- Witness for C8: with the URL variable unset, a fully authorized
session and populated stores are still denied with `MISSING_ENV`. -/
theorem c8_missing_configuration_fails_closed_witness :
    checkAdmin ⟨"", "anon-key", "a@x.com"⟩ (some ⟨"u1", some "a@x.com"⟩)
      ⟨fun _ => ⟨some ⟨"u1", some "admin"⟩, none⟩, fun _ => ⟨none, none⟩⟩ =
      denyResult false DenyReason.MISSING_ENV :=
  c8_missing_configuration_fails_closed ⟨"", "anon-key", "a@x.com"⟩
    (some ⟨"u1", some "a@x.com"⟩)
    ⟨fun _ => ⟨some ⟨"u1", some "admin"⟩, none⟩, fun _ => ⟨none, none⟩⟩
    (Or.inl rfl)

/-- C9: every value `checkAdmin` returns satisfies the result-shape
invariant: `ok = true` iff `admin` is non-null; when `ok` is true,
`isAuthenticated` is true and no reason is present; when `ok` is
false, `admin` is null and some reason is present (the `DenyReason`
type is exactly the closed set NO_SESSION, NOT_ALLOWED, MISSING_ENV,
NO_ADMIN_ROLE). -/
theorem c9_result_shape_invariant (env : Env) (user : Option SessionUser)
    (stores : Stores) :
    ((checkAdmin env user stores).ok = true
      ↔ (checkAdmin env user stores).admin ≠ none)
    ∧ ((checkAdmin env user stores).ok = true →
        (checkAdmin env user stores).isAuthenticated = true
        ∧ (checkAdmin env user stores).reason = none)
    ∧ ((checkAdmin env user stores).ok = false →
        (checkAdmin env user stores).admin = none
        ∧ ∃ r, (checkAdmin env user stores).reason = some r) := by
  rcases checkAdmin_shape env user stores with ⟨uid, email, role, h⟩ | ⟨b, r, h⟩ <;>
    rw [h] <;> simp [okResult, denyResult]

/-- Witness for C9: the invariant instantiated at a concrete denial. -/
theorem c9_result_shape_invariant_witness :
    ((checkAdmin ⟨"", "", ""⟩ none ⟨fun _ => ⟨none, none⟩, fun _ => ⟨none, none⟩⟩).ok = true
      ↔ (checkAdmin ⟨"", "", ""⟩ none ⟨fun _ => ⟨none, none⟩, fun _ => ⟨none, none⟩⟩).admin ≠ none)
    ∧ ((checkAdmin ⟨"", "", ""⟩ none ⟨fun _ => ⟨none, none⟩, fun _ => ⟨none, none⟩⟩).ok = true →
        (checkAdmin ⟨"", "", ""⟩ none ⟨fun _ => ⟨none, none⟩, fun _ => ⟨none, none⟩⟩).isAuthenticated = true
        ∧ (checkAdmin ⟨"", "", ""⟩ none ⟨fun _ => ⟨none, none⟩, fun _ => ⟨none, none⟩⟩).reason = none)
    ∧ ((checkAdmin ⟨"", "", ""⟩ none ⟨fun _ => ⟨none, none⟩, fun _ => ⟨none, none⟩⟩).ok = false →
        (checkAdmin ⟨"", "", ""⟩ none ⟨fun _ => ⟨none, none⟩, fun _ => ⟨none, none⟩⟩).admin = none
        ∧ ∃ r, (checkAdmin ⟨"", "", ""⟩ none ⟨fun _ => ⟨none, none⟩, fun _ => ⟨none, none⟩⟩).reason = some r) :=
  c9_result_shape_invariant ⟨"", "", ""⟩ none ⟨fun _ => ⟨none, none⟩, fun _ => ⟨none, none⟩⟩

/-- C10: a session whose user exists but carries no email address is
denied with `NO_SESSION` and `isAuthenticated = false`, and the result
is exactly the result for an absent session, for every state of the
stores and allowlist. -/
theorem c10_emailless_session_like_no_session (env : Env) (u : SessionUser)
    (stores : Stores)
    (hurl : env.supabaseUrl ≠ "") (hkey : env.supabaseAnonKey ≠ "")
    (hemail : u.email = none) :
    checkAdmin env (some u) stores = denyResult false DenyReason.NO_SESSION
    ∧ checkAdmin env (some u) stores = checkAdmin env none stores := by
  have h1 : checkAdmin env (some u) stores = denyResult false DenyReason.NO_SESSION := by
    unfold checkAdmin
    rw [if_neg (by simp [hurl, hkey])]
    simp [hemail, presentString]
  exact ⟨h1, h1.trans (checkAdmin_none_eq env stores hurl hkey).symm⟩

/-- Witness for C10: a concrete email-less user with populated stores
and a configured allowlist. -/
theorem c10_emailless_session_like_no_session_witness :
    checkAdmin ⟨"https://x.supabase.co", "anon-key", "a@x.com"⟩
      (some ⟨"u1", none⟩)
      ⟨fun _ => ⟨some ⟨"u1", some "admin"⟩, none⟩, fun _ => ⟨none, none⟩⟩ =
      denyResult false DenyReason.NO_SESSION
    ∧ checkAdmin ⟨"https://x.supabase.co", "anon-key", "a@x.com"⟩
        (some ⟨"u1", none⟩)
        ⟨fun _ => ⟨some ⟨"u1", some "admin"⟩, none⟩, fun _ => ⟨none, none⟩⟩ =
      checkAdmin ⟨"https://x.supabase.co", "anon-key", "a@x.com"⟩ none
        ⟨fun _ => ⟨some ⟨"u1", some "admin"⟩, none⟩, fun _ => ⟨none, none⟩⟩ :=
  c10_emailless_session_like_no_session
    ⟨"https://x.supabase.co", "anon-key", "a@x.com"⟩ ⟨"u1", none⟩
    ⟨fun _ => ⟨some ⟨"u1", some "admin"⟩, none⟩, fun _ => ⟨none, none⟩⟩
    (by decide) (by decide) rfl

/-- C3: for an authenticated principal with the Supabase configuration
present, `checkAdmin` carries reason `NOT_ALLOWED` if and only if the
configured allowlist is non-empty and the lowercase-normalized email is
not a member, and in that case the full result is the `NOT_ALLOWED`
denial; the right-hand side never mentions the stores, and the stores
are universally quantified, so the outcome of this gate is independent
of both role stores; with an empty allowlist the reason `NOT_ALLOWED`
is never produced. -/
theorem c3_allowlist_gate_iff (env : Env) (u : SessionUser) (e : String)
    (stores : Stores)
    (hurl : env.supabaseUrl ≠ "") (hkey : env.supabaseAnonKey ≠ "")
    (he : u.email = some e) (hene : e ≠ "") :
    ((checkAdmin env (some u) stores).reason = some DenyReason.NOT_ALLOWED
      ↔ (allowedEmailsOf env.adminAllowedEmails ≠ []
          ∧ toLowerStr e ∉ allowedEmailsOf env.adminAllowedEmails))
    ∧ ((allowedEmailsOf env.adminAllowedEmails ≠ []
        ∧ toLowerStr e ∉ allowedEmailsOf env.adminAllowedEmails)
      → checkAdmin env (some u) stores = denyResult true DenyReason.NOT_ALLOWED) := by
  rw [checkAdmin_of_session env u e stores hurl hkey he hene]
  by_cases hgate : (!(allowedEmailsOf env.adminAllowedEmails).isEmpty
      && !(allowedEmailsOf env.adminAllowedEmails).contains (toLowerStr e)) = true
  · rw [if_pos hgate]
    simp only [Bool.and_eq_true, Bool.not_eq_true'] at hgate
    obtain ⟨h1, h2⟩ := hgate
    have h1h : allowedEmailsOf env.adminAllowedEmails ≠ [] := by
      simpa using h1
    have h2h : toLowerStr e ∉ allowedEmailsOf env.adminAllowedEmails := by
      simpa using h2
    exact ⟨by simp [denyResult, h1h, h2h], fun _ => rfl⟩
  · rw [if_neg hgate]
    have hng : ¬(allowedEmailsOf env.adminAllowedEmails ≠ []
        ∧ toLowerStr e ∉ allowedEmailsOf env.adminAllowedEmails) := by
      intro ⟨h1, h2⟩
      apply hgate
      simp only [Bool.and_eq_true, Bool.not_eq_true']
      constructor
      · simpa using h1
      · simpa using h2
    constructor
    · constructor
      · intro habs
        exfalso
        rcases primaryStep_shape u.id (toLowerStr e)
            (allowedEmailsOf env.adminAllowedEmails)
            (stores.userRoles u.id).data (stores.admins u.id).data with ⟨role, h⟩ | h <;>
          rw [h] at habs <;> simp [okResult, denyResult] at habs
      · intro hrhs
        exact absurd hrhs hng
    · intro hrhs
      exact absurd hrhs hng

/-- Witness for C3: a non-empty allowlist not containing the email,
with a primary-store admin record that is nevertheless ignored. -/
theorem c3_allowlist_gate_iff_witness :
    ((checkAdmin ⟨"https://x.supabase.co", "anon-key", "a@x.com"⟩
        (some ⟨"u3", some "c@z.com"⟩)
        ⟨fun _ => ⟨some ⟨"u3", some "admin"⟩, none⟩, fun _ => ⟨none, none⟩⟩).reason
        = some DenyReason.NOT_ALLOWED
      ↔ (allowedEmailsOf "a@x.com" ≠ []
          ∧ toLowerStr "c@z.com" ∉ allowedEmailsOf "a@x.com"))
    ∧ ((allowedEmailsOf "a@x.com" ≠ []
        ∧ toLowerStr "c@z.com" ∉ allowedEmailsOf "a@x.com")
      → checkAdmin ⟨"https://x.supabase.co", "anon-key", "a@x.com"⟩
          (some ⟨"u3", some "c@z.com"⟩)
          ⟨fun _ => ⟨some ⟨"u3", some "admin"⟩, none⟩, fun _ => ⟨none, none⟩⟩
          = denyResult true DenyReason.NOT_ALLOWED) :=
  c3_allowlist_gate_iff ⟨"https://x.supabase.co", "anon-key", "a@x.com"⟩
    ⟨"u3", some "c@z.com"⟩ "c@z.com"
    ⟨fun _ => ⟨some ⟨"u3", some "admin"⟩, none⟩, fun _ => ⟨none, none⟩⟩
    (by decide) (by decide) rfl (by decide)

/-- C4: an authenticated principal whose lowercase-normalized email is
in the configured allowlist (hence the allowlist is non-empty) and for
whom both role-store lookups return no record is authorized with role
`super_admin` (the bootstrap grant). -/
theorem c4_bootstrap_grant (env : Env) (u : SessionUser) (e : String)
    (stores : Stores)
    (hurl : env.supabaseUrl ≠ "") (hkey : env.supabaseAnonKey ≠ "")
    (he : u.email = some e) (hene : e ≠ "")
    (hmem : (allowedEmailsOf env.adminAllowedEmails).contains (toLowerStr e) = true)
    (hprim : (stores.userRoles u.id).data = none)
    (hleg : (stores.admins u.id).data = none) :
    checkAdmin env (some u) stores = okResult u.id (toLowerStr e) "super_admin" := by
  have hmem2 : toLowerStr e ∈ allowedEmailsOf env.adminAllowedEmails := by
    simpa using hmem
  have hne : (allowedEmailsOf env.adminAllowedEmails).isEmpty = false := by
    rcases hl : allowedEmailsOf env.adminAllowedEmails with _ | ⟨a, l⟩
    · rw [hl] at hmem2
      simp at hmem2
    · rfl
  rw [checkAdmin_gate_pass env u e stores hurl hkey he hene (Or.inr hmem)]
  simp [primaryStep, hprim, roleOfUserRoleRow, legacyStep, hleg, roleOfAdminsRow,
    bootstrapStep, hne, hmem2]

/-- Witness for C4: scenario B of the spec — allowlist `a@x.com`,
principal with that email, no role record in either store. -/
theorem c4_bootstrap_grant_witness :
    checkAdmin ⟨"https://x.supabase.co", "anon-key", "a@x.com"⟩
      (some ⟨"u1", some "A@X.com"⟩)
      ⟨fun _ => ⟨none, none⟩, fun _ => ⟨none, none⟩⟩ =
      okResult "u1" (toLowerStr "A@X.com") "super_admin" :=
  c4_bootstrap_grant ⟨"https://x.supabase.co", "anon-key", "a@x.com"⟩
    ⟨"u1", some "A@X.com"⟩ "A@X.com"
    ⟨fun _ => ⟨none, none⟩, fun _ => ⟨none, none⟩⟩
    (by decide) (by decide) rfl (by decide) (by decide) rfl rfl

/-- C5: an authenticated principal passing the allowlist gate, absent
from the primary store, and present in the legacy store with a role in
the allowed-role set is authorized with exactly that legacy role. -/
theorem c5_legacy_fallback_grant (env : Env) (u : SessionUser) (e role : String)
    (stores : Stores) (row : AdminsRow)
    (hurl : env.supabaseUrl ≠ "") (hkey : env.supabaseAnonKey ≠ "")
    (he : u.email = some e) (hene : e ≠ "")
    (hallow : allowedEmailsOf env.adminAllowedEmails = []
      ∨ (allowedEmailsOf env.adminAllowedEmails).contains (toLowerStr e) = true)
    (hprim : (stores.userRoles u.id).data = none)
    (hleg : (stores.admins u.id).data = some row)
    (hrole : row.role = some role)
    (hin : ADMIN_ALLOWED_ROLES.contains role = true) :
    checkAdmin env (some u) stores = okResult u.id (toLowerStr e) role := by
  have hcases : role = "super_admin" ∨ role = "admin" := by
    simpa [ADMIN_ALLOWED_ROLES] using hin
  have hrne : role ≠ "" := by
    rcases hcases with h | h <;> simp [h]
  have hin2 : role ∈ ADMIN_ALLOWED_ROLES := by
    simpa using hin
  rw [checkAdmin_gate_pass env u e stores hurl hkey he hene hallow]
  simp [primaryStep, hprim, roleOfUserRoleRow, legacyStep, hleg, roleOfAdminsRow,
    presentString, hrole, hrne, hin2]

/-- Witness for C5: scenario D of the spec — empty allowlist, primary
store empty, legacy store holds role `admin`. -/
theorem c5_legacy_fallback_grant_witness :
    checkAdmin ⟨"https://x.supabase.co", "anon-key", ""⟩
      (some ⟨"u5", some "e@x.com"⟩)
      ⟨fun _ => ⟨none, none⟩,
       fun _ => ⟨some ⟨"r5", "u5", some "e@x.com", some "admin"⟩, none⟩⟩ =
      okResult "u5" (toLowerStr "e@x.com") "admin" :=
  c5_legacy_fallback_grant ⟨"https://x.supabase.co", "anon-key", ""⟩
    ⟨"u5", some "e@x.com"⟩ "e@x.com" "admin"
    ⟨fun _ => ⟨none, none⟩,
     fun _ => ⟨some ⟨"r5", "u5", some "e@x.com", some "admin"⟩, none⟩⟩
    ⟨"r5", "u5", some "e@x.com", some "admin"⟩
    (by decide) (by decide) rfl (by decide) (Or.inl (by decide)) rfl rfl rfl
    (by decide)

/-- C1 as stated is false: a primary-store record whose role is null is
a record "whose role is not in the allowed-role set", yet `checkAdmin`
falls through to the legacy store and authorizes from it instead of
returning `Denied{NO_ADMIN_ROLE}`.  Here the primary lookup returns a
record with role `""` (not in the allowed set), the legacy store holds
`super_admin`, and the call returns `Authorized{super_admin}`. -/
theorem c1_counterexample :
    ((⟨fun _ => ⟨some ⟨"u2", some ""⟩, none⟩,
       fun _ => ⟨some ⟨"r2", "u2", some "b@y.com", some "super_admin"⟩, none⟩⟩ :
        Stores).userRoles "u2").data = some ⟨"u2", some ""⟩
    ∧ ADMIN_ALLOWED_ROLES.contains "" = false
    ∧ checkAdmin ⟨"https://x.supabase.co", "anon-key", ""⟩
        (some ⟨"u2", some "b@y.com"⟩)
        ⟨fun _ => ⟨some ⟨"u2", some ""⟩, none⟩,
         fun _ => ⟨some ⟨"r2", "u2", some "b@y.com", some "super_admin"⟩, none⟩⟩ =
        okResult "u2" "b@y.com" "super_admin" :=
  ⟨rfl, by decide, by decide⟩

/-- C1 (amended): for every authenticated principal passing any
configured allowlist whose primary role-store lookup returns a record
whose role is non-null, non-empty and not in the allowed-role set,
`checkAdmin` returns `Denied{NO_ADMIN_ROLE}`; the conclusion is one
constant value while the legacy store component is universally
quantified and unconstrained, so the result is the same regardless of
the legacy store's contents (the legacy store is not consulted). -/
theorem c1_demotion_wins (env : Env) (u : SessionUser) (e role : String)
    (stores : Stores) (row : UserRoleRow)
    (hurl : env.supabaseUrl ≠ "") (hkey : env.supabaseAnonKey ≠ "")
    (he : u.email = some e) (hene : e ≠ "")
    (hallow : allowedEmailsOf env.adminAllowedEmails = []
      ∨ (allowedEmailsOf env.adminAllowedEmails).contains (toLowerStr e) = true)
    (hprim : (stores.userRoles u.id).data = some row)
    (hrole : row.role = some role) (hrne : role ≠ "")
    (hnot : ADMIN_ALLOWED_ROLES.contains role = false) :
    checkAdmin env (some u) stores = denyResult true DenyReason.NO_ADMIN_ROLE := by
  have hnot2 : role ∉ ADMIN_ALLOWED_ROLES := by
    simpa using hnot
  rw [checkAdmin_gate_pass env u e stores hurl hkey he hene hallow]
  simp [primaryStep, hprim, roleOfUserRoleRow, presentString, hrole, hrne, hnot2]

/-- Witness for C1: scenario C of the spec — primary role `viewer`,
legacy role `super_admin`, and the result is the `NO_ADMIN_ROLE`
denial. -/
theorem c1_demotion_wins_witness :
    checkAdmin ⟨"https://x.supabase.co", "anon-key", ""⟩
      (some ⟨"u9", some "d@x.com"⟩)
      ⟨fun _ => ⟨some ⟨"u9", some "viewer"⟩, none⟩,
       fun _ => ⟨some ⟨"r9", "u9", some "d@x.com", some "super_admin"⟩, none⟩⟩ =
      denyResult true DenyReason.NO_ADMIN_ROLE :=
  c1_demotion_wins ⟨"https://x.supabase.co", "anon-key", ""⟩
    ⟨"u9", some "d@x.com"⟩ "d@x.com" "viewer"
    ⟨fun _ => ⟨some ⟨"u9", some "viewer"⟩, none⟩,
     fun _ => ⟨some ⟨"r9", "u9", some "d@x.com", some "super_admin"⟩, none⟩⟩
    ⟨"u9", some "viewer"⟩
    (by decide) (by decide) rfl (by decide) (Or.inl (by decide)) rfl rfl
    (by decide) (by decide)

/-- C2 is a code bug the specification explicitly flags: the source
destructures the lookup `error` but only logs it, so a failed lookup
(`data = null`, `error` set) is treated exactly like "no record found"
and resolution falls through to the allowlist bootstrap.  At this
failing input — both stores erroring with "storage unavailable" and an
allowlisted principal — `checkAdmin` returns `Authorized{super_admin}`
instead of propagating a failure distinct from an ordinary denial. -/
theorem c2_storage_error_grants_bootstrap :
    checkAdmin ⟨"https://x.supabase.co", "anon-key", "a@x.com"⟩
      (some ⟨"u1", some "a@x.com"⟩)
      ⟨fun _ => ⟨none, some "storage unavailable"⟩,
       fun _ => ⟨none, some "storage unavailable"⟩⟩ =
      okResult "u1" "a@x.com" "super_admin"
    ∧ ((⟨fun _ => ⟨none, some "storage unavailable"⟩,
         fun _ => ⟨none, some "storage unavailable"⟩⟩ : Stores).userRoles
        "u1").error = some "storage unavailable" :=
  ⟨by decide, rfl⟩

/-- C6 as stated is false: the primary lookup returns a record (with a
null role), yet the legacy store IS consulted — two different legacy
contents produce two different results (`Authorized{admin}` versus
`Denied{NO_ADMIN_ROLE}`) under the same primary record. -/
theorem c6_counterexample :
    ((⟨fun _ => ⟨some ⟨"u4", none⟩, none⟩,
       fun _ => ⟨some ⟨"r4", "u4", some "d@w.com", some "admin"⟩, none⟩⟩ :
        Stores).userRoles "u4").data = some ⟨"u4", none⟩
    ∧ checkAdmin ⟨"https://x.supabase.co", "anon-key", ""⟩
        (some ⟨"u4", some "d@w.com"⟩)
        ⟨fun _ => ⟨some ⟨"u4", none⟩, none⟩,
         fun _ => ⟨some ⟨"r4", "u4", some "d@w.com", some "admin"⟩, none⟩⟩ =
        okResult "u4" "d@w.com" "admin"
    ∧ checkAdmin ⟨"https://x.supabase.co", "anon-key", ""⟩
        (some ⟨"u4", some "d@w.com"⟩)
        ⟨fun _ => ⟨some ⟨"u4", none⟩, none⟩, fun _ => ⟨none, none⟩⟩ =
        denyResult true DenyReason.NO_ADMIN_ROLE :=
  ⟨rfl, by decide, by decide⟩

/-- C6 (amended): the legacy store is not consulted exactly when the
primary record's role is non-null and non-empty; a primary record with
a null or empty role falls through precisely as if no record existed.
Formally, under a primary record `row`: when `row`'s role is truthy
the result is a constant of that role alone (legacy-free), and when it
is falsy the result equals the result for a store whose primary lookup
returns no record and whose legacy store is the same. -/
theorem c6_fallthrough_boundary (env : Env) (u : SessionUser) (e : String)
    (stores stores2 : Stores) (row : UserRoleRow)
    (hurl : env.supabaseUrl ≠ "") (hkey : env.supabaseAnonKey ≠ "")
    (he : u.email = some e) (hene : e ≠ "")
    (hallow : allowedEmailsOf env.adminAllowedEmails = []
      ∨ (allowedEmailsOf env.adminAllowedEmails).contains (toLowerStr e) = true)
    (hadm : stores2.admins = stores.admins)
    (hprim : (stores.userRoles u.id).data = some row)
    (hprim2 : (stores2.userRoles u.id).data = none) :
    checkAdmin env (some u) stores =
      (match presentString row.role with
       | some role =>
         if ADMIN_ALLOWED_ROLES.contains role then
           okResult u.id (toLowerStr e) role
         else denyResult true DenyReason.NO_ADMIN_ROLE
       | none => checkAdmin env (some u) stores2) := by
  rw [checkAdmin_gate_pass env u e stores hurl hkey he hene hallow,
    checkAdmin_gate_pass env u e stores2 hurl hkey he hene hallow]
  cases hr : presentString row.role with
  | some role => simp [primaryStep, hprim, roleOfUserRoleRow, hr]
  | none => simp [primaryStep, hprim, hprim2, roleOfUserRoleRow, hr, hadm]

/-- Witness for C6: a primary record with the (disallowed) truthy role
`viewer` resolves without the legacy store. -/
theorem c6_fallthrough_boundary_witness :
    checkAdmin ⟨"https://x.supabase.co", "anon-key", ""⟩
      (some ⟨"u6", some "f@x.com"⟩)
      ⟨fun _ => ⟨some ⟨"u6", some "viewer"⟩, none⟩,
       fun _ => ⟨some ⟨"r6", "u6", some "f@x.com", some "admin"⟩, none⟩⟩ =
      (match presentString (some "viewer") with
       | some role =>
         if ADMIN_ALLOWED_ROLES.contains role then
           okResult "u6" (toLowerStr "f@x.com") role
         else denyResult true DenyReason.NO_ADMIN_ROLE
       | none =>
         checkAdmin ⟨"https://x.supabase.co", "anon-key", ""⟩
           (some ⟨"u6", some "f@x.com"⟩)
           ⟨fun _ => ⟨none, none⟩,
            fun _ => ⟨some ⟨"r6", "u6", some "f@x.com", some "admin"⟩, none⟩⟩) :=
  c6_fallthrough_boundary ⟨"https://x.supabase.co", "anon-key", ""⟩
    ⟨"u6", some "f@x.com"⟩ "f@x.com"
    ⟨fun _ => ⟨some ⟨"u6", some "viewer"⟩, none⟩,
     fun _ => ⟨some ⟨"r6", "u6", some "f@x.com", some "admin"⟩, none⟩⟩
    ⟨fun _ => ⟨none, none⟩,
     fun _ => ⟨some ⟨"r6", "u6", some "f@x.com", some "admin"⟩, none⟩⟩
    ⟨"u6", some "viewer"⟩
    (by decide) (by decide) rfl (by decide) (Or.inl (by decide)) rfl rfl rfl
